import Mathlib

/-!
Verification of the BddAgent repository: a shallow embedding of the
agent-loop core (`game/agentLanguage.py`, `game/actions.py`,
`game/environment.py`, `game/agent.py`, `game/memory.py`) into Lean,
together with theorems settling the specification claims.

Python values that originate from `json.loads`, tool results and the
result records built by the environments are modeled by `JValue`.
Python exceptions (the `Exception` level that `except Exception`
catches) are modeled by `PyErr`; a computation that may raise is an
`Except PyErr _`.
-/

namespace BddAgent

/-- A JSON-like Python value: the values produced by `json.loads`,
passed as tool arguments, and stored in result records and memory
entries. Python dicts are modeled as insertion-ordered association
lists with unique keys (the shape `json.loads` and the repository's
literal dicts produce). -/
inductive JValue where
  | null
  | bool (b : Bool)
  | num (n : Int)
  | str (s : String)
  | arr (elems : List JValue)
  | obj (fields : List (String × JValue))

/-- A Python dict with string keys, as the repository uses throughout. -/
abbrev PyDict := List (String × JValue)

/-- Python exceptions at the `Exception` level (the ones `except
Exception` catches). The payload is the message `str(e)` is built from. -/
inductive PyErr where
  | typeError (msg : String)
  | keyError (key : String)
  | valueError (msg : String)
  | nameError (name : String)
  | attributeError (msg : String)
  | exception (msg : String)

/-- `str(e)` for a Python exception (Python renders `KeyError(k)` as the
repr of the key, and `NameError` with the standard message). -/
def errStr : PyErr → String
  | .typeError m => m
  | .keyError k => "\x27" ++ k ++ "\x27"
  | .valueError m => m
  | .nameError n => "name \x27" ++ n ++ "\x27 is not defined"
  | .attributeError m => m
  | .exception m => m

/-- Dict lookup (`d.get(k)` / `k in d`); keys are unique, so the first
match is the binding. -/
def alookup {α : Type} : List (String × α) → String → Option α
  | [], _ => none
  | (k, v) :: rest, key => if k = key then some v else alookup rest key

/-- Dict item assignment `d[k] = v`: replaces the value in place when
the key exists (Python keeps the original insertion position),
otherwise appends the new key at the end. -/
def setKey {α : Type} : List (String × α) → String → α → List (String × α)
  | [], key, v => [(key, v)]
  | (k, w) :: rest, key, v =>
      if k = key then (k, v) :: rest else (k, w) :: setKey rest key v

/-- Characters `p` are a leading segment of characters `l`. -/
def charsPre : List Char → List Char → Bool
  | [], _ => true
  | _ :: _, [] => false
  | a :: as, b :: bs => a == b && charsPre as bs

/-- First index (in characters) at which `pat` occurs in `l`, if any. -/
def findIdxOfChars (pat : List Char) : List Char → Nat → Option Nat
  | [], i => if pat.isEmpty then some i else none
  | c :: rest, i =>
      if charsPre pat (c :: rest) then some i else findIdxOfChars pat rest (i + 1)

/-- Python `pat in s` for strings: substring containment. -/
def strContains (s pat : String) : Bool :=
  (findIdxOfChars pat.toList s.toList 0).isSome

/-- Python `s.find(pat)`: character index of the first occurrence, or
`none` for Python's `-1`. -/
def strFind (s pat : String) : Option Nat :=
  findIdxOfChars pat.toList s.toList 0

/-- Python `==` between a JSON value and a string (used by `x in list`). -/
def elemEqStr : JValue → String → Bool
  | .str t, needle => t == needle
  | _, _ => false

/-- Python's `needle in v` for a JSON value `v`: key membership on a
dict, element membership on a list, substring test on a string, and a
`TypeError` on any non-iterable value (int, float, bool, None). -/
def pyContains (needle : String) : JValue → Except PyErr Bool
  | .obj fields => .ok (alookup fields needle).isSome
  | .arr elems => .ok (elems.any (fun e => elemEqStr e needle))
  | .str s => .ok (strContains s needle)
  | _ => .error (.typeError "argument of type is not iterable")

/-- Python's short-circuiting `and` over two tests that may raise. -/
def pyAnd (a : Except PyErr Bool) (b : Unit → Except PyErr Bool) : Except PyErr Bool := do
  let x ← a
  if x then b () else pure false

/-- Python subscription `v[key]` with a string key: dict lookup raising
`KeyError` on a missing key, `TypeError` on lists/strings (string keys
are not integer indices) and on non-subscriptable values. -/
def pySubscript : JValue → String → Except PyErr JValue
  | .obj fields, key =>
      match alookup fields key with
      | some v => .ok v
      | none => .error (.keyError key)
  | .str _, _ => .error (.typeError "string indices must be integers")
  | .arr _, _ => .error (.typeError "list indices must be integers")
  | _, _ => .error (.typeError "object is not subscriptable")

/-- Python truthiness of a JSON value. -/
def pyFalsy : JValue → Bool
  | .null => true
  | .bool b => !b
  | .num n => n == 0
  | .str s => s.isEmpty
  | .arr xs => xs.isEmpty
  | .obj fs => fs.isEmpty

mutual

/-- `json.dumps` on a JSON value (string escaping and whitespace options
elided; no claim inspects the serialized text beyond determinism). -/
def dumps : JValue → String
  | .null => "null"
  | .bool true => "true"
  | .bool false => "false"
  | .num n => toString n
  | .str s => "\"" ++ s ++ "\""
  | .arr xs => "[" ++ dumpsArr xs ++ "]"
  | .obj fs => "\x7b" ++ dumpsObj fs ++ "\x7d"

/-- Serialize array elements, comma separated. -/
def dumpsArr : List JValue → String
  | [] => ""
  | [x] => dumps x
  | x :: y :: xs => dumps x ++ ", " ++ dumpsArr (y :: xs)

/-- Serialize object fields, comma separated. -/
def dumpsObj : List (String × JValue) → String
  | [] => ""
  | [(k, v)] => "\"" ++ k ++ "\": " ++ dumps v
  | (k, v) :: f :: fs => "\"" ++ k ++ "\": " ++ dumps v ++ ", " ++ dumpsObj (f :: fs)

end

/-- The fallback invocation `parse_response` builds from the raw text:
`\x7b"tool_name": "terminate", "args": \x7b"message": response\x7d\x7d`. -/
def terminateFallback (response : String) : JValue :=
  .obj [("tool_name", .str "terminate"),
        ("args", .obj [("message", .str response)])]

/-- `AgentFunctionCallingActionLanguage.parse_response`
(`game/agentLanguage.py`). `parsed` is the outcome of
`json.loads(response)`: `none` models a `json.JSONDecodeError` (the only
exception the source catches), `some v` the decoded value. The body
checks `"tool_name" in parsed and "args" in parsed`, then
`"function" in parsed and "arguments" in parsed` (both at top level),
and in the second branch reads `parsed["function"]["name"]` and
`parsed["function"]["arguments"]`; any other value falls back to the
terminate invocation. Exceptions other than the decode error propagate. -/
def parse_response (response : String) (parsed : Option JValue) : Except PyErr JValue :=
  match parsed with
  | none => .ok (terminateFallback response)
  | some p => do
      let c1 ← pyAnd (pyContains "tool_name" p) (fun _ => pyContains "args" p)
      if c1 then
        pure p
      else
        let c2 ← pyAnd (pyContains "function" p) (fun _ => pyContains "arguments" p)
        if c2 then
          let f ← pySubscript p "function"
          let nm ← pySubscript f "name"
          let ar ← pySubscript f "arguments"
          pure (.obj [("tool_name", nm), ("args", ar)])
        else
          pure (terminateFallback response)

/-- `Action` (`game/actions.py`): a named capability. `params` is the
list of the callable's declared parameter names (what
`inspect.signature` reports, used by `has_named_parameter`); `run` is
the callable applied to a keyword-argument dict, which may raise. -/
structure Action where
  name : String
  params : List String
  run : PyDict → Except PyErr JValue
  description : String := ""
  parameters : JValue := .null
  terminal : Bool := false

/-- `action.execute(**args)`: unpacking a non-mapping with `**` raises
`TypeError`; otherwise the callable runs on the keyword dict. -/
def Action.executeOn (a : Action) (argsV : JValue) : Except PyErr JValue :=
  match argsV with
  | .obj d => a.run d
  | _ => .error (.typeError "argument after ** must be a mapping")

/-- `ActionRegistry.get_action` (`game/actions.py` lines 37-40): raises
`ValueError` with the message `Action <name> not found in registry`
when the name is absent; the registry itself is the dict
`self.actions`. -/
def ActionRegistry.get_action (actions : List (String × Action)) (name : String) :
    Except PyErr Action :=
  match alookup actions name with
  | none => .error (.valueError ("Action \x27" ++ name ++ "\x27 not found in registry"))
  | some a => .ok a

/-- `self.action_registry.get_action(invocation["tool_name"])` with the
looked-up value still a JSON value: a non-string key is simply absent
from the string-keyed dict, so the same `ValueError` is raised with the
rendering of the value. -/
def registry_get_action (actions : List (String × Action)) (nameV : JValue) :
    Except PyErr Action :=
  match nameV with
  | .str n => ActionRegistry.get_action actions n
  | v => .error (.valueError ("Action \x27" ++ dumps v ++ "\x27 not found in registry"))

/-- `ReversibleAction` (`game/actions.py` lines 81-95): an execute
callable paired with its inverse. The mutable `execution_record` is
threaded explicitly where needed. `id` identifies the object in event
traces. -/
structure ReversibleAction where
  id : String
  execute_func : PyDict → Except PyErr JValue
  reverse_func : PyDict → Except PyErr JValue

/-- The keyword dict `undo` passes to the inverse:
`self.reverse_func(**self.execution_record)` where the record is
`\x7b"args": args, "result": result\x7d`. -/
def undoRecordArgs (args : PyDict) (result : JValue) : PyDict :=
  [("args", .obj args), ("result", result)]

/-- `ReversibleAction.undo`: raises `ValueError` when no execution
record exists, otherwise calls the inverse on the recorded kwargs. -/
def ReversibleAction.undo (a : ReversibleAction) (record : Option (PyDict × JValue)) :
    Except PyErr JValue :=
  match record with
  | none => .error (.valueError "No action to reverse")
  | some (args, result) => a.reverse_func (undoRecordArgs args result)

/-- Events observable during a transaction: a reversible action's
`run` completing, or its `undo` being invoked. -/
inductive TEvent where
  | ran (id : String)
  | undone (id : String)
deriving DecidableEq

/-- `ActionTransaction.rollback`: `for action in reversed(self.executed):
await action.undo()`. The input is the already-reversed executed list,
each action paired with the execution record its successful `run` set.
An inverse that raises propagates immediately (later inverses are not
attempted). Returns the trace of undo invocations and the outcome. -/
def transactionRollback :
    List (ReversibleAction × PyDict × JValue) → List TEvent × Except PyErr Unit
  | [] => ([], .ok ())
  | (a, args, r) :: rest =>
      match a.undo (some (args, r)) with
      | .ok _ =>
          let p := transactionRollback rest
          (.undone a.id :: p.1, p.2)
      | .error e => ([.undone a.id], .error e)

/-- The loop of `ActionTransaction.execute`: run each staged action in
order, appending it to `executed` after a successful `run`; on the
first exception, roll back the executed actions in reverse order and
re-raise the original exception (or the rollback's own exception if an
inverse fails). Returns the event trace and the outcome. -/
def transactionExecuteGo :
    List (ReversibleAction × PyDict) → List (ReversibleAction × PyDict × JValue) →
    List TEvent → List TEvent × Except PyErr Unit
  | [], _executed, trace => (trace, .ok ())
  | (a, args) :: rest, executed, trace =>
      match a.execute_func args with
      | .ok r => transactionExecuteGo rest (executed ++ [(a, args, r)]) (trace ++ [.ran a.id])
      | .error e =>
          let p := transactionRollback executed.reverse
          (trace ++ p.1,
           match p.2 with
           | .ok _ => .error e
           | .error e2 => .error e2)

/-- `ActionTransaction.execute` (`game/actions.py` lines 109-121) on the
staged action list. -/
def ActionTransaction.execute (staged : List (ReversibleAction × PyDict)) :
    List TEvent × Except PyErr Unit :=
  transactionExecuteGo staged [] []

/-- `ActionTransaction` object state. `__init__` sets `self.commited`
(single final t) to `False`; `add` reads `self.commited`; `commit`
assigns `self.committed` (double t), a distinct attribute that nothing
else reads — both spellings are therefore modeled as separate fields,
with `committed` starting `false` for "attribute absent". -/
structure ActionTransactionState where
  actions : List (ReversibleAction × PyDict)
  executed : List (ReversibleAction × PyDict × JValue)
  commited : Bool
  committed : Bool

/-- `ActionTransaction.__init__`. -/
def ActionTransaction.init : ActionTransactionState :=
  ⟨[], [], false, false⟩

/-- `ActionTransaction.add`: raises `ValueError` when `self.commited`
is set, otherwise appends the staged pair. -/
def ActionTransaction.add (t : ActionTransactionState) (a : ReversibleAction)
    (args : PyDict) : Except PyErr ActionTransactionState :=
  if t.commited then .error (.valueError "Transaction already commited")
  else .ok { t with actions := t.actions ++ [(a, args)] }

/-- `ActionTransaction.commit`: `self.committed = True` — note the
spelling: it writes the `committed` attribute, not the `commited`
attribute that `add` checks. -/
def ActionTransaction.commit (t : ActionTransactionState) : ActionTransactionState :=
  { t with committed := true }

/-- An entry of the global `tools` catalog (`game/tools.py`): the dict
`register_tool` stores per tool name. `params` is the underlying
callable's declared parameter list. -/
structure ToolDesc where
  description : String
  parameters : JValue
  params : List String
  run : PyDict → Except PyErr JValue
  terminal : Bool
  tags : List String

/-- Build the `Action` the registry constructors create from a catalog
entry. -/
def toolToAction (n : String) (d : ToolDesc) : Action :=
  { name := n, params := d.params, run := d.run, description := d.description,
    parameters := d.parameters, terminal := d.terminal }

/-- `DecoratorActionRegistry` object state: the `actions` dict and the
separately remembered `terminate_tool`. -/
structure DecoratorRegistryState where
  actions : List (String × Action)
  terminate_tool : Option ToolDesc

/-- Python truthiness of an optional list argument (`None` and the
empty list are both falsy, so an empty filter list disables the
filter). -/
def pyTruthyOptList : Option (List String) → Bool
  | none => false
  | some l => !l.isEmpty

/-- One iteration of the `DecoratorActionRegistry.__init__` loop over
`tools.items()` (`game/actions.py` lines 45-67): remember the terminate
tool when the name is `terminate` (the loop does NOT `continue` there),
then skip the entry when the name allow-list is truthy and misses the
name, or when the tag filter is truthy and no filter tag occurs in the
tool's tags; otherwise register the action (dict assignment by name). -/
def decoratorStep (tags tool_names : Option (List String))
    (st : DecoratorRegistryState) (entry : String × ToolDesc) : DecoratorRegistryState :=
  let tool_name := entry.1
  let tool_desc := entry.2
  let st := if tool_name = "terminate" then { st with terminate_tool := some tool_desc } else st
  if pyTruthyOptList tool_names && !(tool_names.getD []).contains tool_name then st
  else
    let tool_tags := tool_desc.tags
    if pyTruthyOptList tags && !(tags.getD []).any (fun tag => tool_tags.contains tag) then st
    else { st with actions := setKey st.actions tool_name (toolToAction tool_name tool_desc) }

/-- The `__init__` loop, folded over the catalog in iteration order. -/
def decoratorInitGo (tags tool_names : Option (List String)) :
    List (String × ToolDesc) → DecoratorRegistryState → DecoratorRegistryState
  | [], st => st
  | e :: rest, st => decoratorInitGo tags tool_names rest (decoratorStep tags tool_names st e)

/-- `DecoratorActionRegistry(tags, tool_names)` applied to the global
tool catalog `tools` (passed explicitly, since the catalog is populated
by `@register_tool` decorators at import time). -/
def DecoratorActionRegistry.init (tools : List (String × ToolDesc))
    (tags tool_names : Option (List String)) : DecoratorRegistryState :=
  decoratorInitGo tags tool_names tools ⟨[], none⟩

/-- `DecoratorActionRegistry.register_terminate_tool`: registers the
remembered terminate tool, or raises when the catalog had none. -/
def DecoratorActionRegistry.register_terminate_tool (st : DecoratorRegistryState) :
    Except PyErr DecoratorRegistryState :=
  match st.terminate_tool with
  | some td => .ok { st with actions := setKey st.actions "terminate" (toolToAction "terminate" td) }
  | none => .error (.exception "Terminate tool not found in global registry")

/-- Whether a catalog entry passes the `__init__` name and tag filters. -/
def passesFilters (tags tool_names : Option (List String)) (n : String) (d : ToolDesc) : Bool :=
  !(pyTruthyOptList tool_names && !(tool_names.getD []).contains n) &&
  !(pyTruthyOptList tags && !(tags.getD []).any (fun tag => d.tags.contains tag))

/-- The `terminate` tool as registered by `tools/otherTools.py`:
`@register_tool(tags=["general"], terminal=True)` on
`terminate(message="Task completed successfully")`. -/
def terminateToolDesc : ToolDesc where
  description := "Terminate the agent session with a summary message."
  parameters := .obj [("type", .str "object"),
                      ("properties", .obj [("message", .obj [("type", .str "string")])]),
                      ("required", .arr [])]
  params := ["message"]
  run := fun args =>
    let message := match alookup args "message" with
      | some (.str s) => s
      | some v => dumps v
      | none => "Task completed successfully"
    .ok (.str (message ++ "\n\n🎉 Agent session completed."))
  terminal := true
  tags := ["general"]

/-- `Environment.format_result` (`game/environment.py`): the success
record; `now` is the formatted `time.strftime` timestamp. -/
def format_result (now : String) (result : JValue) (success : Bool) : JValue :=
  .obj [("tool_executed", .bool success), ("result", result), ("timestamp", .str now)]

/-- `traceback.format_exc()` for the caught exception (the frame text
is immaterial; only the field's presence is specified). -/
def tracebackOf (e : PyErr) : String :=
  "Traceback (most recent call last): " ++ errStr e

/-- The failure record of the base `Environment`. -/
def baseFailureDict (e : PyErr) : JValue :=
  .obj [("tool_executed", .bool false), ("error", .str (errStr e)),
        ("traceback", .str (tracebackOf e))]

/-- `Environment.execute_action` (`game/environment.py` lines 15-32):
`try: result = action.execute(**args); return self.format_result(result)`
with `except Exception` producing the failure record. The outer
`Except` is the raise channel of the method itself: an `.ok` result
means no exception escaped. -/
def Environment.execute_action (now : String) (a : Action) (argsV : JValue) :
    Except PyErr JValue :=
  match a.executeOn argsV with
  | .ok result => .ok (format_result now result true)
  | .error e => .ok (baseFailureDict e)

/-- The context-injection step of `ActionContextEnvironment.execute_action`:
`args_copy = args.copy()`, inject the action context when the callable
declares a parameter `action_context`, then for each context property
(in insertion order) inject its value under `_<key>` when the callable
declares that parameter. The injected context object is rendered as the
dict of its properties. -/
def injectContext (props : List (String × JValue)) (a : Action) (d : PyDict) : PyDict :=
  let d1 := if a.params.contains "action_context" then setKey d "action_context" (.obj props) else d
  props.foldl
    (fun acc kv => if a.params.contains ("_" ++ kv.1) then setKey acc ("_" ++ kv.1) kv.2 else acc)
    d1

/-- The failure record of `ActionContextEnvironment` (no traceback
field). -/
def ctxFailureDict (e : PyErr) : JValue :=
  .obj [("tool_executed", .bool false), ("error", .str (errStr e))]

/-- `ActionContextEnvironment.execute_action` (`game/environment.py`
lines 34-61): the whole body — `args.copy()` (an `AttributeError` on a
non-dict), injection, the call, `format_result` — sits inside
`try ... except Exception`, which produces the reduced failure record. -/
def ActionContextEnvironment.execute_action (now : String) (props : List (String × JValue))
    (a : Action) (argsV : JValue) : Except PyErr JValue :=
  match (do
      let d ← match argsV with
        | .obj d => Except.ok d
        | _ => Except.error (PyErr.attributeError "object has no attribute copy")
      let args_copy := injectContext props a d
      let result ← a.run args_copy
      pure (format_result now result true) : Except PyErr JValue) with
  | .ok v => .ok v
  | .error e => .ok (ctxFailureDict e)

/-!
`AIReviewBDDEnvironment` (`game/environment.py` lines 123-212). The
review path's call chain passes positional arguments whose counts do
not match the callees' parameter lists, which in Python raises
`TypeError` without entering the callee. Review-path computations carry
a second component: the number of times the dispatched action's
callable was actually invoked.
-/

/-- Python positional-call semantics: a call supplying `argCount`
positional arguments to a function declaring `paramCount` positional
parameters (no defaults among them) enters the body only when the
counts match, and raises `TypeError` otherwise, never evaluating the
body. -/
def pyCallCounted (paramCount argCount : Nat)
    (body : Unit → Except PyErr JValue × Nat) : Except PyErr JValue × Nat :=
  if argCount = paramCount then body ()
  else (.error (.typeError "positional argument count mismatch"), 0)

/-- `AIReviewBDDEnvironment.max_review_iterations` (set in `__init__`). -/
def max_review_iterations : Nat := 3

/-- `AIReviewBDDEnvironment.immediate_operations`. -/
def immediate_operations : List String :=
  ["parse_gherkin", "extract_scenarios", "validate_gherkin_syntax", "read_existing_code"]

/-- `AIReviewBDDEnvironment.ai_review_operations`. -/
def ai_review_operations : List String :=
  ["generate_step_definitions", "generate_test_implementation",
   "generate_production_code", "refactor_existing_code"]

/-- `ActionContextEnvironment.execute_action` declares 3 positional
parameters besides `self`: `action_context`, `action`, `args`. -/
def contextExecuteParamCount : Nat := 3

/-- `AIReviewBDDEnvironment.execute_with_ai_review` declares 3
positional parameters besides `self`: `action_context`, `action`,
`args`. -/
def executeWithAiReviewParamCount : Nat := 3

/-- `AIReviewBDDEnvironment._execute_with_review_loop` declares 4
positional parameters besides `self`: `agent`, `action_context`,
`action`, `args`. -/
def reviewLoopParamCount : Nat := 4

/-- The parsed verdict `_ai_review_content` returns (a dict with keys
`approved`, `feedback`, `full_response`, modeled as a record since the
keys are fixed). -/
structure ReviewVerdict where
  approved : Bool
  feedback : String
  full_response : String

/-- The review prompt `_ai_review_content` builds for an operation type
and content: a fixed template instantiated with the rendered content
(the literal prose of the template is immaterial — the reviewer model
is universally quantified in every statement about it). -/
def reviewPromptFor (operationType : String) (content : JValue) (originalArgs : PyDict) : String :=
  "Review [" ++ operationType ++ "]: " ++ dumps content ++ " / " ++ dumps (.obj originalArgs)

/-- `AIReviewBDDEnvironment._ai_review_content`: sends the review prompt
to the model, counts the response approved when `APPROVE` occurs in its
upper-cased text, and takes everything after `FEEDBACK:` (9 characters)
as feedback, or the whole response when the marker is absent. -/
def ai_review_content (llm : String → String) (operationType : String)
    (content : JValue) (originalArgs : PyDict) : ReviewVerdict :=
  let review_response := llm (reviewPromptFor operationType content originalArgs)
  let approved := strContains review_response.toUpper "APPROVE"
  let feedback := match strFind review_response "FEEDBACK:" with
    | some i => (review_response.drop (i + 9)).trim
    | none => review_response
  ⟨approved, feedback, review_response⟩

/-- The result record returned after the review loop's cap is exceeded
(referencing the last attempt's content and feedback). -/
def reviewExhaustedDict (lastContent : JValue) (lastFeedback : String) : JValue :=
  .obj [("tool_executed", .bool false),
        ("error", .str ("Failed AI review after " ++ toString max_review_iterations ++ " attempts")),
        ("last_attempt", lastContent),
        ("final_feedback", .str lastFeedback)]

/-- The approved result record of the review loop. -/
def reviewApprovedDict (content : JValue) (iterations : Nat) (feedback : String) : JValue :=
  .obj [("tool_executed", .bool true), ("result", content),
        ("review_iterations", .num iterations), ("review_feedback", .str feedback)]

/-- The body of `_execute_with_review_loop`'s `for iteration in
range(max_review_iterations)` loop, recursing on the remaining
iterations and carrying the current args, the last generated content
and feedback (unbound names — a `NameError` — if the loop never set
them), and the execution count. Each iteration begins with
`self.context_env.execute_action(agent, action_context, action, args)`:
4 positional arguments against the 3-parameter method, so in Python the
iteration raises `TypeError` before the tool runs; the loop has no
`try`, so the exception propagates. The rest of the body is the
source's: return an error result unchanged, review the generated
content, return the approved record on approval, otherwise feed
`previous_attempt` and `review_feedback` into the next attempt's args. -/
def reviewGo (now : String) (llm : String → String) (props : List (String × JValue))
    (a : Action) : Nat → Nat → PyDict → Option JValue → Option String → Nat →
    Except PyErr JValue × Nat
  | 0, _, _, lastContent, lastFeedback, count =>
      match lastContent, lastFeedback with
      | some c, some f => (.ok (reviewExhaustedDict c f), count)
      | _, _ => (.error (.nameError "generated_content"), count)
  | fuel + 1, iteration, args, _, _, count =>
      match pyCallCounted contextExecuteParamCount 4
          (fun _ => (ActionContextEnvironment.execute_action now props a (.obj args), 1)) with
      | (.error e, n) => (.error e, count + n)
      | (.ok result, n) =>
          let count := count + n
          if pyFalsy ((alookup (match result with | .obj fs => fs | _ => []) "tool_executed").getD .null) then
            (.ok result, count)
          else
            match pySubscript result "result" with
            | .error e => (.error e, count)
            | .ok generated_content =>
                let review := ai_review_content llm a.name generated_content args
                if review.approved then
                  (.ok (reviewApprovedDict generated_content (iteration + 1) review.feedback), count)
                else
                  let args1 := setKey args "previous_attempt" generated_content
                  let args2 := setKey args1 "review_feedback" (.str review.feedback)
                  reviewGo now llm props a fuel (iteration + 1) args2
                    (some generated_content) (some review.feedback) count

/-- `AIReviewBDDEnvironment._execute_with_review_loop` when actually
entered with its own arity satisfied. -/
def execute_with_review_loop (now : String) (llm : String → String)
    (props : List (String × JValue)) (a : Action) (args : PyDict) :
    Except PyErr JValue × Nat :=
  reviewGo now llm props a max_review_iterations 0 args none none 0

/-- `AIReviewBDDEnvironment._execute_immediate`:
`self.context_env.execute_action(action_context, action, args)` — 3
arguments to the 3-parameter method, so the call is entered and the
tool runs exactly once inside it. -/
def execute_immediate (now : String) (props : List (String × JValue)) (a : Action)
    (argsV : JValue) : Except PyErr JValue × Nat :=
  pyCallCounted contextExecuteParamCount 3
    (fun _ => (ActionContextEnvironment.execute_action now props a argsV, 1))

/-- `AIReviewBDDEnvironment.execute_with_ai_review` as entered with its
own arity satisfied: immediate operations execute once; review
operations go to `self._execute_with_review_loop(action_context,
action, args)` — 3 arguments against its 4 parameters, a `TypeError`;
everything else executes immediately. -/
def execute_with_ai_review (now : String) (llm : String → String)
    (props : List (String × JValue)) (a : Action) (argsV : JValue) :
    Except PyErr JValue × Nat :=
  if immediate_operations.contains a.name then
    execute_immediate now props a argsV
  else if ai_review_operations.contains a.name then
    pyCallCounted reviewLoopParamCount 3
      (fun _ => execute_with_review_loop now llm props a
        (match argsV with | .obj d => d | _ => []))
  else
    execute_immediate now props a argsV

/-- The dispatch `Agent.handle_agent_response` performs when the
environment has `execute_with_ai_review`:
`self.environment.execute_with_ai_review(self, action_context,
action_def, action_invocation["args"])` — 4 positional arguments
against the method's 3 parameters, a `TypeError` raised before the
method body runs. -/
def ai_review_dispatch (now : String) (llm : String → String)
    (props : List (String × JValue)) : Action → JValue → Except PyErr JValue × Nat :=
  fun a argsV =>
    pyCallCounted executeWithAiReviewParamCount 4
      (fun _ => execute_with_ai_review now llm props a argsV)

/-!
`Memory` (`game/memory.py`) and the `Agent` control loop
(`game/agent.py`). Wall-clock time is modeled by a `Nat` counter
threaded through the run: each `time.time()` read returns the counter
and advances it, and `datetime.now().isoformat()` renders the same
counter as a string.
-/

/-- `datetime.now().isoformat()` at counter time `t`. -/
def isoformat (t : Nat) : String :=
  "iso-" ++ toString t

/-- `Memory.add_memory` (`game/memory.py` lines 29-32):
`memory_item = memory.copy()` (so the caller's dict is never mutated),
`memory_item["timestamp"] = time.time()` (the numeric clock value,
replacing any caller-supplied timestamp in place), then append.
Returns the new item list and the advanced clock. -/
def Memory.add_memory (items : List PyDict) (clk : Nat) (d : PyDict) :
    List PyDict × Nat :=
  (items ++ [setKey d "timestamp" (.num clk)], clk + 1)

/-- The entry `Agent.set_current_task` passes to `add_memory`:
user role, the task text, and an ISO timestamp (which `add_memory`
then overwrites). -/
def taskEntry (task : String) (t : Nat) : PyDict :=
  [("role", .str "user"), ("content", .str task), ("timestamp", .str (isoformat t))]

/-- The assistant entry `Agent.update_memory` records first. -/
def assistantEntry (response : String) (t : Nat) : PyDict :=
  [("role", .str "assistant"), ("content", .str response), ("timestamp", .str (isoformat t))]

/-- The user-role result entry `Agent.update_memory` records second,
with the dispatch result JSON-serialized. -/
def resultEntry (serialized : String) (t : Nat) : PyDict :=
  [("role", .str "user"), ("content", .str serialized), ("timestamp", .str (isoformat t))]

/-- The dict `Agent.handle_agent_response` returns from its
`except Exception` handler. -/
def handlerErrorDict (e : PyErr) (response : String) : JValue :=
  .obj [("tool_executed", .bool false),
        ("error", .str ("Error handling agent response: " ++ errStr e)),
        ("response", .str response)]

/-- `Agent.get_action` (`game/agent.py` lines 41-44): parse the
response, then resolve `invocation["tool_name"]` in the registry;
returns the action and the invocation. Any step may raise. -/
def Agent.get_action (registry : List (String × Action)) (response : String)
    (parsed : Option JValue) : Except PyErr (Action × JValue) :=
  match parse_response response parsed with
  | .error e => .error e
  | .ok invocation =>
      match pySubscript invocation "tool_name" with
      | .error e => .error e
      | .ok nameV =>
          match registry_get_action registry nameV with
          | .error e => .error e
          | .ok a => .ok (a, invocation)

/-- `Agent.handle_agent_response` (`game/agent.py` lines 84-105):
resolve the action, dispatch it through the environment (the concrete
dispatch — base, context-injecting or AI-review, as selected by the
source's capability probing — is the `dispatch` argument, returning
the result or a raised exception together with the number of times the
tool body ran), and convert any exception raised anywhere in the body
into the handler error dict. Returns the result record and the tool
execution count. -/
def Agent.handle_agent_response (registry : List (String × Action))
    (dispatch : Action → JValue → Except PyErr JValue × Nat)
    (response : String) (parsed : Option JValue) : JValue × Nat :=
  match Agent.get_action registry response parsed with
  | .error e => (handlerErrorDict e response, 0)
  | .ok (a, invocation) =>
      match pySubscript invocation "args" with
      | .error e => (handlerErrorDict e response, 0)
      | .ok argsV =>
          match dispatch a argsV with
          | (.ok d, n) => (d, n)
          | (.error e, n) => (handlerErrorDict e response, n)

/-- `Agent.should_terminate` (`game/agent.py` lines 46-52): resolve the
action again and read its `terminal` flag; any exception is caught and
treated as "do not terminate". -/
def Agent.should_terminate (registry : List (String × Action)) (response : String)
    (parsed : Option JValue) : Bool :=
  match Agent.get_action registry response parsed with
  | .ok (a, _) => a.terminal
  | .error _ => false

/-- The data a constructed prompt renders (goals are omitted: the
claims never inspect them). `construct_prompt` is a pure rendering of
the registry's actions and the current memory; the model function is
universally quantified over prompts in every statement, so the textual
rendering (`format_goals`/`format_memory`/`format_actions`) is not
re-modeled. -/
structure Prompt where
  memoryItems : List PyDict
  actions : List Action

/-- `Agent.construct_prompt`, at the data level described on `Prompt`. -/
def Agent.construct_prompt (registry : List (String × Action)) (items : List PyDict) : Prompt :=
  ⟨items, registry.map (fun e => e.2)⟩

/-- Outcome of `Agent.run`: the final memory items, the number of loop
iterations that ran, and the number of model calls made. -/
structure RunResult where
  items : List PyDict
  iterationsRun : Nat
  modelCalls : Nat

/-- The body of `Agent.run`'s `for iteration in range(max_iterations)`
loop (`game/agent.py` lines 107-166), recursing on the remaining
iterations. Per iteration: construct the prompt, call the model once
(`prompt_llm_for_action`; the model function returns the raw response
text paired with its `json.loads` outcome, since decoding happens
inside `parse_response`), dispatch via `handle_agent_response`, record
the assistant response and the JSON-serialized result (in that order),
and stop when `should_terminate` holds. Capabilities are the
constructor default `[]`, and no source environment defines
`review_and_execute_staged`, so that trailing branch never fires. -/
def runGo (registry : List (String × Action))
    (g : Prompt → String × Option JValue)
    (dispatch : Action → JValue → Except PyErr JValue × Nat) :
    Nat → List PyDict → Nat → Nat → Nat → RunResult
  | 0, items, _, iters, calls => ⟨items, iters, calls⟩
  | fuel + 1, items, clk, iters, calls =>
      let prompt := Agent.construct_prompt registry items
      let rp := g prompt
      let response := rp.1
      let parsed := rp.2
      let result := (Agent.handle_agent_response registry dispatch response parsed).1
      let m1 := Memory.add_memory items clk (assistantEntry response clk)
      let m2 := Memory.add_memory m1.1 m1.2 (resultEntry (dumps result) m1.2)
      if Agent.should_terminate registry response parsed then
        ⟨m2.1, iters + 1, calls + 1⟩
      else
        runGo registry g dispatch fuel m2.1 m2.2 (iters + 1) (calls + 1)

/-- `Agent.run` started with an empty (fresh) `Memory`: record the
task as a user entry, then iterate the loop up to `max_iterations`. -/
def Agent.run (max_iterations : Nat) (registry : List (String × Action))
    (g : Prompt → String × Option JValue)
    (dispatch : Action → JValue → Except PyErr JValue × Nat)
    (task : String) : RunResult :=
  let m0 := Memory.add_memory [] 0 (taskEntry task 0)
  runGo registry g dispatch max_iterations m0.1 m0.2 0 0

/-!
Helper lemmas and concrete fixtures shared by the claim theorems.
-/

theorem alookup_setKey {α : Type} (m : List (String × α)) (k : String) (v : α)
    (n : String) :
    alookup (setKey m k v) n = if k = n then some v else alookup m n := by
  induction m with
  | nil => simp [setKey, alookup]
  | cons hd t ih =>
      obtain ⟨k1, v1⟩ := hd
      by_cases h1 : k1 = k
      · subst h1
        by_cases h2 : k1 = n <;> simp [setKey, alookup, h2]
      · by_cases h2 : k1 = n
        · subst h2
          by_cases h3 : k = k1
          · exact absurd h3.symm h1
          · simp [setKey, alookup, h1, h3]
        · by_cases h3 : k = n
          · subst h3
            simp [setKey, alookup, h1, h2, ih]
          · simp [setKey, alookup, h1, h2, h3, ih]

/-- A concrete reversible action that succeeds and records its undo. -/
def raA : ReversibleAction :=
  ⟨"A", fun _ => .ok (.str "did-A"), fun _ => .ok (.str "undid-A")⟩

/-- A concrete reversible action whose execution raises. -/
def raB : ReversibleAction :=
  ⟨"B", fun _ => .error (.exception "B failed"), fun _ => .ok (.str "undid-B")⟩

/-- A concrete registered action named `foo`. -/
def fooAction : Action :=
  { name := "foo", params := [], run := fun _ => .ok .null }

/-- The spec's nested wire-shape example, as `json.loads` decodes it. -/
def nestedWireExample : JValue :=
  .obj [("function", .obj [("name", .str "X"), ("arguments", .obj [("a", .num 1)])])]

/-- The raw text of the nested wire-shape example. -/
def nestedWireText : String :=
  "\x7b\"function\":\x7b\"name\":\"X\",\"arguments\":\x7b\"a\":1\x7d\x7d\x7d"

/-- The normalized invocation the spec expects for the nested example. -/
def normalizedInvocationX : JValue :=
  .obj [("tool_name", .str "X"), ("args", .obj [("a", .num 1)])]

/-- Claim C1: the nested wire shape does NOT normalize. The guard
`"function" in parsed and "arguments" in parsed` checks both keys at
the top level, but the nested shape carries `arguments` inside
`function`, so the example input falls through to the terminate
fallback instead of the normalized invocation the branch body (which
reads `parsed["function"]["name"]`) and the spec intend. -/
theorem parse_response_nested_shape_falls_to_terminate :
    parse_response nestedWireText (some nestedWireExample) =
      .ok (terminateFallback nestedWireText) ∧
    terminateFallback nestedWireText ≠ normalizedInvocationX := by
  refine ⟨rfl, fun h => ?_⟩
  have h2 : pySubscript (terminateFallback nestedWireText) "tool_name" =
      pySubscript normalizedInvocationX "tool_name" := by rw [h]
  have h3 : (Except.ok (JValue.str "terminate") : Except PyErr JValue) =
      .ok (.str "X") := h2
  injection h3 with h4
  injection h4 with h5
  exact absurd h5 (by decide)

/-- Claim C3 counterexample: the input `5` is valid JSON matching
neither wire shape, yet `parse_response` raises a `TypeError` (from
`"tool_name" in parsed` on a non-iterable) instead of returning the
terminate fallback — only `json.JSONDecodeError` is caught. -/
theorem parse_response_scalar_raises :
    parse_response "5" (some (.num 5)) =
      .error (.typeError "argument of type is not iterable") ∧
    parse_response "5" (some (.num 5)) ≠ .ok (terminateFallback "5") := by
  refine ⟨rfl, fun h => ?_⟩
  rw [show parse_response "5" (some (.num 5)) =
        .error (.typeError "argument of type is not iterable") from rfl] at h
  exact Except.noConfusion h

/-- Claim C3 as amended: for input that is not valid JSON, and for
valid-JSON object input whose top level lacks `tool_name` or `args` and
lacks `function` or `arguments`, `parse_response` returns the terminate
fallback carrying the original text and does not raise. -/
theorem parse_response_fallback (response : String) (p : Option JValue)
    (h : p = none ∨ ∃ fields, p = some (.obj fields) ∧
        ((alookup fields "tool_name").isSome = false ∨
         (alookup fields "args").isSome = false) ∧
        ((alookup fields "function").isSome = false ∨
         (alookup fields "arguments").isSome = false)) :
    parse_response response p = .ok (terminateFallback response) := by
  rcases h with h | ⟨fields, hp, h1, h2⟩
  · subst h; rfl
  · subst hp
    rcases h1 with h1 | h1 <;> rcases h2 with h2 | h2 <;>
      simp [parse_response, pyContains, pyAnd, h1, h2, bind, Except.bind, pure, Except.pure]

/-- Claim C3 witness: a valid-JSON object with neither wire shape falls
back to the terminate invocation. -/
theorem parse_response_fallback_witness :
    parse_response "just chatting" (some (.obj [("message", .str "hi")])) =
      .ok (terminateFallback "just chatting") :=
  parse_response_fallback "just chatting" (some (.obj [("message", .str "hi")]))
    (Or.inr ⟨[("message", .str "hi")], rfl, Or.inl rfl, Or.inl rfl⟩)

/-- Claim C6 counterexample: with action A succeeding and action B
raising, the transaction's rollback invokes undo(A) only — undo(B) is
never invoked, because B's failing `run` never appended it to
`executed` — and then the original failure is re-raised. -/
theorem transaction_rollback_skips_failed_action :
    (ActionTransaction.execute [(raA, []), (raB, [])]).1 =
      [.ran "A", .undone "A"] ∧
    ¬ (TEvent.undone "B") ∈ (ActionTransaction.execute [(raA, []), (raB, [])]).1 ∧
    (ActionTransaction.execute [(raA, []), (raB, [])]).2 =
      .error (.exception "B failed") := by
  refine ⟨rfl, by decide, rfl⟩

/-- Claim C6 as amended: a failure during B's execution rolls back only
the successfully executed actions, in reverse order of execution —
here undo(A) alone, B never being undone — and re-raises the original
failure. -/
theorem transaction_rollback_reverse_of_executed
    (A B : ReversibleAction) (argsA argsB : PyDict) (r u : JValue) (e : PyErr)
    (hA : A.execute_func argsA = .ok r)
    (hB : B.execute_func argsB = .error e)
    (hundo : A.reverse_func (undoRecordArgs argsA r) = .ok u) :
    ActionTransaction.execute [(A, argsA), (B, argsB)] =
      ([.ran A.id, .undone A.id], .error e) := by
  simp [ActionTransaction.execute, transactionExecuteGo, hA, hB,
    transactionRollback, ReversibleAction.undo, hundo]

/-- Claim C6 witness: the amended rollback behavior at the concrete
transaction. -/
theorem transaction_rollback_reverse_of_executed_witness :
    ActionTransaction.execute [(raA, []), (raB, [])] =
      ([.ran "A", .undone "A"], .error (.exception "B failed")) :=
  transaction_rollback_reverse_of_executed raA raB [] [] (.str "did-A")
    (.str "undid-A") (.exception "B failed") rfl rfl rfl

/-- Claim C7: after `commit()`, `add` still succeeds and grows the
staged list, because `commit` assigns the attribute `committed` while
`add` checks the differently spelled `commited`, which stays `False`. -/
theorem transaction_commit_typo_allows_add :
    (∃ t2, ActionTransaction.add (ActionTransaction.commit ActionTransaction.init) raA [] =
        .ok t2 ∧ t2.actions.length = 1) ∧
    (ActionTransaction.commit ActionTransaction.init).commited = false ∧
    (ActionTransaction.commit ActionTransaction.init).committed = true :=
  ⟨⟨_, rfl, rfl⟩, rfl, rfl⟩

/-- Claim C8 counterexample: the unknown-name error message names the
requested action but NOT the available actions — with `foo` registered,
the message for `nonexistent` does not mention `foo`. -/
theorem get_action_message_lacks_available :
    ActionRegistry.get_action [("foo", fooAction)] "nonexistent" =
      .error (.valueError "Action \x27nonexistent\x27 not found in registry") ∧
    strContains "Action \x27nonexistent\x27 not found in registry" "foo" = false ∧
    strContains "Action \x27nonexistent\x27 not found in registry" "nonexistent" = true := by
  refine ⟨rfl, by decide, by decide⟩

/-- Claim C8 as amended: looking up an unregistered name always raises
a `ValueError` naming the requested action (but not the available
ones), and never returns a value. -/
theorem get_action_notfound_error (actions : List (String × Action)) (name : String)
    (h : alookup actions name = none) :
    ActionRegistry.get_action actions name =
      .error (.valueError ("Action \x27" ++ name ++ "\x27 not found in registry")) := by
  simp [ActionRegistry.get_action, h]

/-- Claim C8 witness: the amended lookup failure at a concrete registry
and name. -/
theorem get_action_notfound_error_witness :
    ActionRegistry.get_action [("foo", fooAction)] "missing" =
      .error (.valueError ("Action \x27" ++ "missing" ++ "\x27 not found in registry")) :=
  get_action_notfound_error [("foo", fooAction)] "missing" rfl

/-- Claim C10: `add_memory` appends exactly one entry, a copy of the
caller's dict whose `timestamp` is unconditionally set to the current
numeric clock (replacing any caller-supplied value, such as the agent's
ISO strings), with every other key's binding unchanged; prior items and
the caller's dict are untouched. -/
theorem add_memory_timestamp_replaced (items : List PyDict) (clk : Nat) (d : PyDict) :
    ∃ e, Memory.add_memory items clk d = (items ++ [e], clk + 1) ∧
      alookup e "timestamp" = some (.num clk) ∧
      (∀ k, k ≠ "timestamp" → alookup e k = alookup d k) := by
  refine ⟨setKey d "timestamp" (.num clk), rfl, ?_, ?_⟩
  · rw [alookup_setKey]; simp
  · intro k hk
    rw [alookup_setKey]
    simp [Ne.symm hk]

/-- A memory entry carrying a caller-supplied ISO-format timestamp, as
`Agent.set_current_task` builds. -/
def isoTaskDict : PyDict :=
  [("role", .str "user"), ("content", .str "X"),
   ("timestamp", .str "2026-10-12T00:00:00")]

/-- Claim C10 witness: the timestamp-replacement contract at a concrete
entry whose caller-supplied timestamp is an ISO string. -/
theorem add_memory_timestamp_replaced_witness :
    ∃ e, Memory.add_memory [] 5 isoTaskDict = ([] ++ [e], 5 + 1) ∧
      alookup e "timestamp" = some (.num 5) ∧
      (∀ k, k ≠ "timestamp" → alookup e k = alookup isoTaskDict k) :=
  add_memory_timestamp_replaced [] 5 isoTaskDict

/-- Claim C5: neither `Environment.execute_action` nor
`ActionContextEnvironment.execute_action` ever propagates an exception:
for every action and argument dict, each returns (never raises) a
record that is the success shape `\x7btool_executed: true, result,
timestamp\x7d` when the tool call succeeds, and the failure shape with
`tool_executed: false` and the error — the base variant additionally
carrying a traceback field — when the tool body raises. -/
theorem execute_action_never_raises (now : String) (a : Action) (args : PyDict)
    (props : List (String × JValue)) :
    (∃ d, Environment.execute_action now a (.obj args) = .ok d ∧
      ((∃ r, a.run args = .ok r ∧ d = format_result now r true) ∨
       (∃ e, a.run args = .error e ∧ d = baseFailureDict e))) ∧
    (∃ d, ActionContextEnvironment.execute_action now props a (.obj args) = .ok d ∧
      ((∃ r, a.run (injectContext props a args) = .ok r ∧ d = format_result now r true) ∨
       (∃ e, a.run (injectContext props a args) = .error e ∧ d = ctxFailureDict e))) := by
  constructor
  · cases h : a.run args with
    | ok r =>
        exact ⟨format_result now r true,
          by simp [Environment.execute_action, Action.executeOn, h],
          Or.inl ⟨r, rfl, rfl⟩⟩
    | error e =>
        exact ⟨baseFailureDict e,
          by simp [Environment.execute_action, Action.executeOn, h],
          Or.inr ⟨e, rfl, rfl⟩⟩
  · cases h : a.run (injectContext props a args) with
    | ok r =>
        exact ⟨format_result now r true,
          by simp [ActionContextEnvironment.execute_action, h, bind, Except.bind,
            pure, Except.pure],
          Or.inl ⟨r, rfl, rfl⟩⟩
    | error e =>
        exact ⟨ctxFailureDict e,
          by simp [ActionContextEnvironment.execute_action, h, bind, Except.bind],
          Or.inr ⟨e, rfl, rfl⟩⟩

/-- The AI-review action used to exercise the review path — its name is
in `ai_review_operations`. -/
def genAction : Action :=
  { name := "generate_step_definitions", params := ["specifications"],
    run := fun _ => .ok (.str "code") }

/-- A reviewer model that always rejects. -/
def rejectLlm : String → String :=
  fun _ => "DECISION: REJECT\nFEEDBACK: needs work"

/-- A model response requesting the review-set action. -/
def genRequestText : String :=
  "\x7b\"tool_name\":\"generate_step_definitions\",\"args\":\x7b\x7d\x7d"

/-- The decoded JSON of `genRequestText`. -/
def genRequestVal : JValue :=
  .obj [("tool_name", .str "generate_step_definitions"), ("args", .obj [])]

/-- Claim C2: the review path never performs even one attempt. As
dispatched from the agent loop, `execute_with_ai_review` is called with
4 positional arguments against its 3 parameters, so a `TypeError` is
raised before the method runs and the agent's handler returns its
generic error dict with zero tool executions; even entered directly,
the method passes 3 arguments to the 4-parameter
`_execute_with_review_loop`, and the loop itself passes 4 arguments to
the 3-parameter `context_env.execute_action` — so in every case the
action is executed 0 times, not `max_review_iterations` (= 3) times,
and the review-failure record carrying the last attempt and final
feedback is never produced. -/
theorem ai_review_dispatch_arity_bug :
    Agent.handle_agent_response [("generate_step_definitions", genAction)]
        (ai_review_dispatch "T0" rejectLlm []) genRequestText (some genRequestVal) =
      (handlerErrorDict (.typeError "positional argument count mismatch") genRequestText, 0) ∧
    execute_with_ai_review "T0" rejectLlm [] genAction (.obj []) =
      (.error (.typeError "positional argument count mismatch"), 0) ∧
    execute_with_review_loop "T0" rejectLlm [] genAction [] =
      (.error (.typeError "positional argument count mismatch"), 0) ∧
    max_review_iterations = 3 :=
  ⟨rfl, rfl, rfl, rfl⟩

theorem decoratorStep_actions (tags tns : Option (List String))
    (st : DecoratorRegistryState) (e : String × ToolDesc) :
    (decoratorStep tags tns st e).actions =
      if passesFilters tags tns e.1 e.2
      then setKey st.actions e.1 (toolToAction e.1 e.2)
      else st.actions := by
  obtain ⟨tool_name, tool_desc⟩ := e
  have hact : (if tool_name = "terminate"
      then { st with terminate_tool := some tool_desc } else st).actions = st.actions := by
    split <;> rfl
  simp only [decoratorStep, passesFilters]
  cases h1 : pyTruthyOptList tns && !(tns.getD []).contains tool_name with
  | true => simp [h1, hact]
  | false =>
      cases h2 : pyTruthyOptList tags &&
          !(tags.getD []).any fun tag => tool_desc.tags.contains tag with
      | true => simp [h1, h2, hact]
      | false => simp [h1, h2, hact]

theorem decoratorStep_actions_lookup_isSome (tags tns : Option (List String))
    (st : DecoratorRegistryState) (e : String × ToolDesc) (n : String) :
    (alookup (decoratorStep tags tns st e).actions n).isSome =
      ((alookup st.actions n).isSome || (e.1 == n && passesFilters tags tns e.1 e.2)) := by
  rw [decoratorStep_actions]
  cases hp : passesFilters tags tns e.1 e.2 with
  | false => simp [hp]
  | true =>
      by_cases hn : e.1 = n
      · simp [hp, hn, alookup_setKey]
      · simp [hp, hn, alookup_setKey]

theorem decoratorInitGo_lookup_isSome (tags tns : Option (List String))
    (l : List (String × ToolDesc)) (st : DecoratorRegistryState) (n : String) :
    (alookup (decoratorInitGo tags tns l st).actions n).isSome =
      ((alookup st.actions n).isSome ||
        l.any (fun e => e.1 == n && passesFilters tags tns e.1 e.2)) := by
  induction l generalizing st with
  | nil => simp [decoratorInitGo]
  | cons e rest ih =>
      rw [decoratorInitGo, ih, decoratorStep_actions_lookup_isSome]
      simp [Bool.or_assoc]

theorem decoratorStep_terminate_tool (tags tns : Option (List String))
    (st : DecoratorRegistryState) (e : String × ToolDesc) :
    (decoratorStep tags tns st e).terminate_tool =
      if e.1 = "terminate" then some e.2 else st.terminate_tool := by
  obtain ⟨tool_name, tool_desc⟩ := e
  have htt : (if tool_name = "terminate"
      then { st with terminate_tool := some tool_desc } else st).terminate_tool =
      if tool_name = "terminate" then some tool_desc else st.terminate_tool := by
    split <;> rfl
  simp only [decoratorStep]
  cases h1 : pyTruthyOptList tns && !(tns.getD []).contains tool_name with
  | true => simp [h1, htt]
  | false =>
      cases h2 : pyTruthyOptList tags &&
          !(tags.getD []).any fun tag => tool_desc.tags.contains tag with
      | true => simp [h1, h2, htt]
      | false => simp [h1, h2, htt]

theorem decoratorInitGo_terminate_tool_isSome (tags tns : Option (List String))
    (l : List (String × ToolDesc)) (st : DecoratorRegistryState) :
    (decoratorInitGo tags tns l st).terminate_tool.isSome =
      (st.terminate_tool.isSome || l.any (fun e => e.1 == "terminate")) := by
  induction l generalizing st with
  | nil => simp [decoratorInitGo]
  | cons e rest ih =>
      rw [decoratorInitGo, ih, decoratorStep_terminate_tool]
      by_cases hn : e.1 = "terminate"
      · simp [hn]
      · have hb : (e.1 == "terminate") = false := beq_eq_false_iff_ne.mpr hn
        simp [hn, hb]

/-- Claim C9 counterexample: with the catalog holding `terminate`
exactly as `tools/otherTools.py` registers it (tags `["general"]`), the
filtering constructor called with the tag filter `["general"]` makes
`terminate` resolvable immediately — `register_terminate_tool` was
never called, contradicting the claimed unconditional exclusion. -/
theorem terminate_registered_by_tag_filter :
    ∃ a, ActionRegistry.get_action
        (DecoratorActionRegistry.init [("terminate", terminateToolDesc)]
          (some ["general"]) none).actions "terminate" = .ok a ∧
      a.terminal = true :=
  ⟨toolToAction "terminate" terminateToolDesc, rfl, rfl⟩

/-- Claim C9 as amended: `terminate` is subject to the same tag/name
filtering as every other tool — the constructor registers it exactly
when some catalog entry named `terminate` passes the filters — and the
explicit `register_terminate_tool` opt-in succeeds and makes it
resolvable whenever the catalog contains a `terminate` entry at all,
regardless of the filters. -/
theorem terminate_filtering_characterization (tools : List (String × ToolDesc))
    (tags tns : Option (List String)) :
    ((alookup (DecoratorActionRegistry.init tools tags tns).actions "terminate").isSome =
      tools.any (fun e => e.1 == "terminate" && passesFilters tags tns e.1 e.2)) ∧
    (tools.any (fun e => e.1 == "terminate") = true →
      ∃ st2, DecoratorActionRegistry.register_terminate_tool
          (DecoratorActionRegistry.init tools tags tns) = .ok st2 ∧
        (alookup st2.actions "terminate").isSome = true) := by
  constructor
  · rw [DecoratorActionRegistry.init, decoratorInitGo_lookup_isSome]
    simp [alookup]
  · intro h
    have h2 := decoratorInitGo_terminate_tool_isSome tags tns tools ⟨[], none⟩
    rw [h] at h2
    simp at h2
    have h3 : (DecoratorActionRegistry.init tools tags tns).terminate_tool.isSome = true := by
      rw [DecoratorActionRegistry.init]
      exact h2
    obtain ⟨td, htd⟩ := Option.isSome_iff_exists.mp h3
    refine ⟨{ DecoratorActionRegistry.init tools tags tns with
        actions := setKey (DecoratorActionRegistry.init tools tags tns).actions
          "terminate" (toolToAction "terminate" td) }, ?_, ?_⟩
    · rw [DecoratorActionRegistry.register_terminate_tool, htd]
      simp [htd]
    · simp [alookup_setKey]

/-- Claim C9 witness: with a tag filter that does not match
`terminate`'s tags, the constructor leaves it unregistered and the
explicit opt-in then registers it. -/
theorem terminate_filtering_characterization_witness :
    ((alookup (DecoratorActionRegistry.init [("terminate", terminateToolDesc)]
        (some ["file_operations"]) none).actions "terminate").isSome =
      [("terminate", terminateToolDesc)].any
        (fun e => e.1 == "terminate" && passesFilters (some ["file_operations"]) none e.1 e.2)) ∧
    (∃ st2, DecoratorActionRegistry.register_terminate_tool
        (DecoratorActionRegistry.init [("terminate", terminateToolDesc)]
          (some ["file_operations"]) none) = .ok st2 ∧
      (alookup st2.actions "terminate").isSome = true) :=
  ⟨(terminate_filtering_characterization [("terminate", terminateToolDesc)]
      (some ["file_operations"]) none).1,
   (terminate_filtering_characterization [("terminate", terminateToolDesc)]
      (some ["file_operations"]) none).2 rfl⟩

/-- The decoded JSON of the scenario's fixed model response
`\x7b"tool_name":"terminate","args":\x7b"message":"done"\x7d\x7d`. -/
def termDoneVal : JValue :=
  .obj [("tool_name", .str "terminate"), ("args", .obj [("message", .str "done")])]

theorem get_action_term_done (registry : List (String × Action)) (term : Action)
    (S : String) (hreg : alookup registry "terminate" = some term) :
    Agent.get_action registry S (some termDoneVal) = .ok (term, termDoneVal) := by
  simp only [Agent.get_action,
    show parse_response S (some termDoneVal) = Except.ok termDoneVal from rfl,
    show pySubscript termDoneVal "tool_name" = Except.ok (JValue.str "terminate") from rfl,
    registry_get_action, ActionRegistry.get_action, hreg]

theorem should_terminate_term (registry : List (String × Action)) (term : Action)
    (S : String) (hreg : alookup registry "terminate" = some term)
    (hterm : term.terminal = true) :
    Agent.should_terminate registry S (some termDoneVal) = true := by
  unfold Agent.should_terminate
  rw [get_action_term_done registry term S hreg]
  exact hterm

/-- Claim C4: a run over an empty memory whose registry resolves
`terminate` to a terminal action and whose model always answers the
terminate/done invocation performs exactly one loop iteration and one
model call, and leaves exactly 3 memory entries in order: the user
task, the assistant response, and the user-role JSON-serialized
dispatch result (each timestamped by `add_memory`'s numeric clock). -/
theorem agent_run_terminal_scenario
    (max_iterations : Nat) (hm : 1 ≤ max_iterations)
    (registry : List (String × Action)) (term : Action)
    (hreg : alookup registry "terminate" = some term)
    (hterm : term.terminal = true)
    (S task : String) (g : Prompt → String × Option JValue)
    (hg : ∀ p, g p = (S, some termDoneVal))
    (dispatch : Action → JValue → Except PyErr JValue × Nat) :
    ∃ d, d = (Agent.handle_agent_response registry dispatch S (some termDoneVal)).1 ∧
      Agent.run max_iterations registry g dispatch task =
        ⟨[[("role", .str "user"), ("content", .str task), ("timestamp", .num 0)],
          [("role", .str "assistant"), ("content", .str S), ("timestamp", .num 1)],
          [("role", .str "user"), ("content", .str (dumps d)), ("timestamp", .num 2)]],
          1, 1⟩ := by
  obtain ⟨k, rfl⟩ : ∃ k, max_iterations = k + 1 := ⟨max_iterations - 1, by omega⟩
  refine ⟨_, rfl, ?_⟩
  unfold Agent.run
  rw [runGo]
  simp only [hg]
  rw [should_terminate_term registry term S hreg hterm]
  rfl

/-- Claim C4 witness: the scenario at a concrete registry, model
function and base-environment dispatch. -/
theorem agent_run_terminal_scenario_witness :
    ∃ d, d = (Agent.handle_agent_response
        [("terminate", toolToAction "terminate" terminateToolDesc)]
        (fun a v => (Environment.execute_action "TS" a v, 1))
        "\x7b\"tool_name\":\"terminate\",\"args\":\x7b\"message\":\"done\"\x7d\x7d"
        (some termDoneVal)).1 ∧
      Agent.run 30 [("terminate", toolToAction "terminate" terminateToolDesc)]
        (fun _ =>
          ("\x7b\"tool_name\":\"terminate\",\"args\":\x7b\"message\":\"done\"\x7d\x7d",
           some termDoneVal))
        (fun a v => (Environment.execute_action "TS" a v, 1)) "X" =
        ⟨[[("role", .str "user"), ("content", .str "X"), ("timestamp", .num 0)],
          [("role", .str "assistant"),
           ("content",
            .str "\x7b\"tool_name\":\"terminate\",\"args\":\x7b\"message\":\"done\"\x7d\x7d"),
           ("timestamp", .num 1)],
          [("role", .str "user"), ("content", .str (dumps d)), ("timestamp", .num 2)]],
          1, 1⟩ :=
  agent_run_terminal_scenario 30 (by omega)
    [("terminate", toolToAction "terminate" terminateToolDesc)]
    (toolToAction "terminate" terminateToolDesc) rfl rfl
    "\x7b\"tool_name\":\"terminate\",\"args\":\x7b\"message\":\"done\"\x7d\x7d" "X"
    (fun _ =>
      ("\x7b\"tool_name\":\"terminate\",\"args\":\x7b\"message\":\"done\"\x7d\x7d",
       some termDoneVal))
    (fun _ => rfl)
    (fun a v => (Environment.execute_action "TS" a v, 1))

end BddAgent
